import Mathlib

/-!
Shallow embedding of the ArduPilot RunCam camera driver
(`libraries/AP_Camera/AP_RunCam.h`): the packet codec with its CRC8
(DVB-S2 polynomial), the single pending-request lifecycle with retry and
timeout, the control state machine, the menu-cursor model and the
capability gating.

The repository snapshot contains only the driver's header file.  Inline
member functions (`parse_response`, `set_mode_change_timeout`,
`has_feature`, the `Request()` default constructor, ...) are embedded
directly from that header.  Function bodies that live in the
implementation file are modelled from the design specification; each such
definition carries a doc comment starting with `Modelled from the spec:`.
-/

namespace RunCam

/-- Camera control commands (header `enum class Command`, lines 99-106).
`COMMAND_NONE` marks the empty pending-request slot. -/
inductive Command where
  | RCDEVICE_PROTOCOL_COMMAND_GET_DEVICE_INFO
  | RCDEVICE_PROTOCOL_COMMAND_CAMERA_CONTROL
  | RCDEVICE_PROTOCOL_COMMAND_5KEY_SIMULATION_PRESS
  | RCDEVICE_PROTOCOL_COMMAND_5KEY_SIMULATION_RELEASE
  | RCDEVICE_PROTOCOL_COMMAND_5KEY_CONNECTION
  | COMMAND_NONE
deriving DecidableEq, Repr

/-- Wire value of each command id (header: 0x00 .. 0x04; `COMMAND_NONE` is
the next enumerator value, 0x05, and is never sent). -/
def command_byte : Command → Nat
  | Command.RCDEVICE_PROTOCOL_COMMAND_GET_DEVICE_INFO => 0x00
  | Command.RCDEVICE_PROTOCOL_COMMAND_CAMERA_CONTROL => 0x01
  | Command.RCDEVICE_PROTOCOL_COMMAND_5KEY_SIMULATION_PRESS => 0x02
  | Command.RCDEVICE_PROTOCOL_COMMAND_5KEY_SIMULATION_RELEASE => 0x03
  | Command.RCDEVICE_PROTOCOL_COMMAND_5KEY_CONNECTION => 0x04
  | Command.COMMAND_NONE => 0x05

/-- Possible supported features (header `enum class Feature`, lines 87-96). -/
inductive Feature where
  | RCDEVICE_PROTOCOL_FEATURE_SIMULATE_POWER_BUTTON
  | RCDEVICE_PROTOCOL_FEATURE_SIMULATE_WIFI_BUTTON
  | RCDEVICE_PROTOCOL_FEATURE_CHANGE_MODE
  | RCDEVICE_PROTOCOL_FEATURE_SIMULATE_5_KEY_OSD_CABLE
  | RCDEVICE_PROTOCOL_FEATURE_DEVICE_SETTINGS_ACCESS
  | RCDEVICE_PROTOCOL_FEATURE_DISPLAY_PORT
  | RCDEVICE_PROTOCOL_FEATURE_START_RECORDING
  | RCDEVICE_PROTOCOL_FEATURE_STOP_RECORDING
deriving DecidableEq, Repr

/-- Numeric value of each feature flag, exactly the header's `(1 << k)`
enumerator values. -/
def feature_bit : Feature → Nat
  | Feature.RCDEVICE_PROTOCOL_FEATURE_SIMULATE_POWER_BUTTON => 1
  | Feature.RCDEVICE_PROTOCOL_FEATURE_SIMULATE_WIFI_BUTTON => 2
  | Feature.RCDEVICE_PROTOCOL_FEATURE_CHANGE_MODE => 4
  | Feature.RCDEVICE_PROTOCOL_FEATURE_SIMULATE_5_KEY_OSD_CABLE => 8
  | Feature.RCDEVICE_PROTOCOL_FEATURE_DEVICE_SETTINGS_ACCESS => 16
  | Feature.RCDEVICE_PROTOCOL_FEATURE_DISPLAY_PORT => 32
  | Feature.RCDEVICE_PROTOCOL_FEATURE_START_RECORDING => 64
  | Feature.RCDEVICE_PROTOCOL_FEATURE_STOP_RECORDING => 128

/-- Bit index `k` of each feature's `(1 << k)` value. -/
def feature_bit_index : Feature → Nat
  | Feature.RCDEVICE_PROTOCOL_FEATURE_SIMULATE_POWER_BUTTON => 0
  | Feature.RCDEVICE_PROTOCOL_FEATURE_SIMULATE_WIFI_BUTTON => 1
  | Feature.RCDEVICE_PROTOCOL_FEATURE_CHANGE_MODE => 2
  | Feature.RCDEVICE_PROTOCOL_FEATURE_SIMULATE_5_KEY_OSD_CABLE => 3
  | Feature.RCDEVICE_PROTOCOL_FEATURE_DEVICE_SETTINGS_ACCESS => 4
  | Feature.RCDEVICE_PROTOCOL_FEATURE_DISPLAY_PORT => 5
  | Feature.RCDEVICE_PROTOCOL_FEATURE_START_RECORDING => 6
  | Feature.RCDEVICE_PROTOCOL_FEATURE_STOP_RECORDING => 7

/-- Operations of camera button simulation (header `enum class
ControlOperation`, lines 60-67). -/
inductive ControlOperation where
  | RCDEVICE_PROTOCOL_SIMULATE_WIFI_BTN
  | RCDEVICE_PROTOCOL_SIMULATE_POWER_BTN
  | RCDEVICE_PROTOCOL_CHANGE_MODE
  | RCDEVICE_PROTOCOL_CHANGE_START_RECORDING
  | RCDEVICE_PROTOCOL_CHANGE_STOP_RECORDING
  | UNKNOWN_CAMERA_OPERATION
deriving DecidableEq, Repr

/-- Wire value of each control operation (header: 0x00 .. 0x04, 0xFF). -/
def control_operation_byte : ControlOperation → Nat
  | ControlOperation.RCDEVICE_PROTOCOL_SIMULATE_WIFI_BTN => 0x00
  | ControlOperation.RCDEVICE_PROTOCOL_SIMULATE_POWER_BTN => 0x01
  | ControlOperation.RCDEVICE_PROTOCOL_CHANGE_MODE => 0x02
  | ControlOperation.RCDEVICE_PROTOCOL_CHANGE_START_RECORDING => 0x03
  | ControlOperation.RCDEVICE_PROTOCOL_CHANGE_STOP_RECORDING => 0x04
  | ControlOperation.UNKNOWN_CAMERA_OPERATION => 0xFF

/-- Protocol versions (header `enum class ProtocolVersion`, lines 125-129). -/
inductive ProtocolVersion where
  | RCSPLIT_VERSION
  | VERSION_1_0
  | UNKNOWN
deriving DecidableEq, Repr

/-- Status of a command (header `enum class RequestStatus`, lines 132-138). -/
inductive RequestStatus where
  | NONE
  | PENDING
  | SUCCESS
  | INCORRECT_CRC
  | TIMEOUT
deriving DecidableEq, Repr

/-- Camera driver state (header `enum class State`, lines 140-148). -/
inductive State where
  | INITIALIZING
  | INITIALIZED
  | READY
  | VIDEO_RECORDING
  | ENTERING_MENU
  | IN_MENU
  | EXITING_MENU
deriving DecidableEq, Repr

/-- Abstract events derived from RC input (header `enum class Event`,
lines 150-162). -/
inductive Event where
  | NONE
  | ENTER_MENU
  | EXIT_MENU
  | IN_MENU_ENTER
  | IN_MENU_RIGHT
  | IN_MENU_UP
  | IN_MENU_DOWN
  | IN_MENU_EXIT
  | BUTTON_RELEASE
  | STOP_RECORDING
  | START_RECORDING
deriving DecidableEq, Repr

/-- Three-way RC switch position (`RC_Channel::aux_switch_pos_t`). -/
inductive SwitchPos where
  | LOW
  | MIDDLE
  | HIGH
deriving DecidableEq, Repr

/-- Header line 39: `#define RUNCAM_MODE_DELAY_MS 600`. -/
def RUNCAM_MODE_DELAY_MS : Nat := 600

/-- Header line 164: fixed number of top-level menu slots. -/
def RUNCAM_NUM_SUB_MENUS : Nat := 5

/-- Modelled from the spec: the frame's leading sync byte.  The constant's
value lives in the implementation file; the RCDevice protocol fixes it at
0xCC.  Nothing below depends on the value. -/
def RUNCAM_HEADER : Nat := 0xCC

/-- One shift step of the CRC8/DVB-S2 update: shift left, xor the
polynomial 0xD5 when the high bit was set.  Modelled from the spec: the
body of `crc8_dvb_s2` (declared at header line 340) is in the
implementation file; the spec fixes the algorithm as CRC8 with the DVB-S2
polynomial computed high-bit-first. -/
def crc8_dvb_s2_shift (crc : Nat) : Nat :=
  if crc.testBit 7 then ((crc * 2) ^^^ 0xD5) % 256 else (crc * 2) % 256

/-- Modelled from the spec: `crc8_dvb_s2(crc, a)` xors in the byte `a`
and performs eight polynomial shift steps. -/
def crc8_dvb_s2 (crc a : Nat) : Nat :=
  crc8_dvb_s2_shift^[8] ((crc ^^^ a) % 256)

/-- Modelled from the spec: `crc8_high_first(ptr, len)` (declared at
header line 339) folds `crc8_dvb_s2` over the buffer starting from 0. -/
def crc8_high_first (buf : List Nat) : Nat :=
  buf.foldl crc8_dvb_s2 0

/-- Modelled from the spec: the frame built by `send_packet` (declared at
header line 337): sync marker, command id, parameter byte, trailing CRC8
over all preceding bytes. -/
def encode_packet (command : Command) (param : Nat) : List Nat :=
  let payload := [RUNCAM_HEADER, command_byte command, param % 256]
  payload ++ [crc8_high_first payload]

/-- Modelled from the spec: `verify(buffer)` recomputes the CRC over all
but the last byte and compares it with the last byte. -/
def verify (buf : List Nat) : Bool :=
  buf.getLast? == some (crc8_high_first buf.dropLast)

/-- The driver's response-parser callbacks (`parse_func_t` functors bound
per request), deep-embedded as tags so that a `Request` can carry one
without a circular type: `parse_device_info` (header line 342) and
`handle_5_key_simulation_response` (header line 313). -/
inductive ParserId where
  | device_info
  | five_key_simulation_response
deriving DecidableEq, Repr

/-- The single outstanding protocol transaction (header `class Request`,
lines 212-252).  `parser_func` is `none` for a null `parse_func_t`;
`recv_buf` models the shared inbound scratch buffer the request points
at. -/
structure Request where
  command : Command
  param : Nat
  recv_buf : List Nat
  recv_response_length : Nat
  expected_response_length : Nat
  timeout_ms : Nat
  request_timestamp_ms : Nat
  max_retry_times : Nat
  parser_func : Option ParserId
  result : RequestStatus
deriving DecidableEq, Repr

/-- Header line 219: `Request() { _command = Command::COMMAND_NONE; }` —
the default constructor sets only the command slot; the remaining fields
are modelled as zero/none defaults. -/
def Request.default_ctor : Request :=
  { command := Command.COMMAND_NONE
    param := 0
    recv_buf := []
    recv_response_length := 0
    expected_response_length := 0
    timeout_ms := 0
    request_timestamp_ms := 0
    max_retry_times := 0
    parser_func := none
    result := RequestStatus.NONE }

/-- Modelled from the spec: the fixed command → expected-response-length
table (`Request::_expected_responses_length`, header line 251, four
entries per `RUNCAM_NUM_EXPECTED_RESPONSES`); the concrete byte counts
follow the RCDevice protocol.  Commands absent from the table yield 0. -/
def Request.get_expected_response_length (command : Command) : Nat :=
  match command with
  | Command.RCDEVICE_PROTOCOL_COMMAND_GET_DEVICE_INFO => 5
  | Command.RCDEVICE_PROTOCOL_COMMAND_5KEY_SIMULATION_PRESS => 2
  | Command.RCDEVICE_PROTOCOL_COMMAND_5KEY_SIMULATION_RELEASE => 2
  | Command.RCDEVICE_PROTOCOL_COMMAND_5KEY_CONNECTION => 3
  | _ => 0

/-- The pending-request slot counts as empty exactly when its command is
`COMMAND_NONE` (the value the default constructor stores and the value the
lifecycle writes back when a request completes or is abandoned). -/
def Request.slot_empty (r : Request) : Bool :=
  r.command == Command.COMMAND_NONE

/-- The driver's mutable state (header lines 168-205 plus the
`_pending_request` member, line 252).  `sent` is the log of frames written
to the transport, standing in for the uart. -/
structure Drv where
  features : Nat
  init_attempts : Nat
  init_attempt_interval_ms : Nat
  boot_delay_ms : Nat
  button_delay_ms : Nat
  video_recording : Bool
  protocol_version : ProtocolVersion
  state : State
  last_osd_update_ms : Nat
  transition_start_ms : Nat
  transition_timeout_ms : Nat
  button_pressed : Bool
  waiting_device_response : Bool
  in_menu : Nat
  top_menu_pos : Int
  sub_menu_pos : Nat
  pending_request : Request
  sent : List (List Nat)
deriving DecidableEq, Repr

/-- The driver as constructed: the header's in-class member initializers
(`_video_recording = true`, `_protocol_version = UNKNOWN`,
`_state = INITIALIZING`) and the default-constructed `_pending_request`;
numeric members start at 0.  `top_menu_pos = -1` ("no selection") is
modelled from the spec, its initial value being assigned in the
implementation file. -/
def initial_state : Drv :=
  { features := 0
    init_attempts := 0
    init_attempt_interval_ms := 0
    boot_delay_ms := 0
    button_delay_ms := 0
    video_recording := true
    protocol_version := ProtocolVersion.UNKNOWN
    state := State.INITIALIZING
    last_osd_update_ms := 0
    transition_start_ms := 0
    transition_timeout_ms := 0
    button_pressed := false
    waiting_device_response := false
    in_menu := 0
    top_menu_pos := -1
    sub_menu_pos := 0
    pending_request := Request.default_ctor
    sent := [] }

/-- Modelled from the spec: `send_packet` (header line 337) serialises the
frame and writes it to the transport. -/
def send_packet (s : Drv) (command : Command) (param : Nat) : Drv :=
  { s with sent := s.sent ++ [encode_packet command param] }

/-- Header line 346 (inline): `has_feature` returns whether the feature's
bit is set in the `_features` bitmask:
`return _features.get() & uint16_t(feature);`. -/
def has_feature (features : Nat) (feature : Feature) : Bool :=
  (features &&& feature_bit feature) != 0

/-- Modelled from the spec: the capability flag gating each simulated
button operation (the spec's CapabilityAbsent error kind: an operation not
supported by the negotiated feature bitmask is rejected before any bytes
are sent).  The unknown operation is gated by no flag and always
rejected. -/
def required_feature : ControlOperation → Option Feature
  | ControlOperation.RCDEVICE_PROTOCOL_SIMULATE_WIFI_BTN =>
      some Feature.RCDEVICE_PROTOCOL_FEATURE_SIMULATE_WIFI_BUTTON
  | ControlOperation.RCDEVICE_PROTOCOL_SIMULATE_POWER_BTN =>
      some Feature.RCDEVICE_PROTOCOL_FEATURE_SIMULATE_POWER_BUTTON
  | ControlOperation.RCDEVICE_PROTOCOL_CHANGE_MODE =>
      some Feature.RCDEVICE_PROTOCOL_FEATURE_CHANGE_MODE
  | ControlOperation.RCDEVICE_PROTOCOL_CHANGE_START_RECORDING =>
      some Feature.RCDEVICE_PROTOCOL_FEATURE_START_RECORDING
  | ControlOperation.RCDEVICE_PROTOCOL_CHANGE_STOP_RECORDING =>
      some Feature.RCDEVICE_PROTOCOL_FEATURE_STOP_RECORDING
  | ControlOperation.UNKNOWN_CAMERA_OPERATION => none

/-- Modelled from the spec: `simulate_camera_button` (declared at header
line 72) consults the feature bitmask before issuing the simulated-button
command; an unsupported operation is rejected — `false` is returned and no
bytes are written to the transport.  A supported one sends a
CAMERA_CONTROL frame carrying the operation code. -/
def simulate_camera_button (s : Drv) (operation : ControlOperation) : Bool × Drv :=
  match required_feature operation with
  | none => (false, s)
  | some f =>
    if has_feature s.features f then
      (true, send_packet s Command.RCDEVICE_PROTOCOL_COMMAND_CAMERA_CONTROL
        (control_operation_byte operation))
    else
      (false, s)

/-- Header lines 255-258 (inline): start the counter for a button press. -/
def set_button_press_timeout (s : Drv) : Drv :=
  { s with transition_timeout_ms := s.button_delay_ms
           button_pressed := true }

/-- Header lines 260-263 (inline): start the counter for a mode change:
`_transition_timeout_ms = RUNCAM_MODE_DELAY_MS; _button_pressed = true;`. -/
def set_mode_change_timeout (s : Drv) : Drv :=
  { s with transition_timeout_ms := RUNCAM_MODE_DELAY_MS
           button_pressed := true }

/-- Modelled from the spec: `parse_device_info` (declared at header line
342) decodes the protocol version and the feature bitmask from the
device-info response into the device profile and transitions the driver
from INITIALIZING to INITIALIZED; a legacy version is a permanent failure
and no feature bitmask is assumed. -/
def parse_device_info (r : Request) (s : Drv) : Drv :=
  let ver := r.recv_buf.getD 1 0
  if ver = 1 then
    { s with protocol_version := ProtocolVersion.VERSION_1_0
             features := r.recv_buf.getD 2 0 + 256 * r.recv_buf.getD 3 0
             state := State.INITIALIZED }
  else if ver = 0 then
    { s with protocol_version := ProtocolVersion.RCSPLIT_VERSION }
  else
    { s with protocol_version := ProtocolVersion.UNKNOWN }

/-- Modelled from the spec: `handle_5_key_simulation_response` (declared
at header line 313) acknowledges the 5-key request; the driver stops
waiting for a device response. -/
def handle_5_key_simulation_response (s : Drv) : Drv :=
  { s with waiting_device_response := false }

/-- Dispatch table from the deep-embedded parser tags to the parser
bodies. -/
def run_parser_callback : ParserId → Request → Drv → Drv
  | ParserId.device_info, r, s => parse_device_info r s
  | ParserId.five_key_simulation_response, _, s => handle_5_key_simulation_response s

/-- Header lines 240-244 (inline): `parse_response` invokes the attached
parser callback only when it is non-null:
`if (_parser_func != nullptr) { _parser_func(*this); }`. -/
def Request.parse_response (r : Request) (s : Drv) : Drv :=
  match r.parser_func with
  | none => s
  | some pid => run_parser_callback pid r s

/-- Modelled from the spec: `send_request_and_waiting_response` (declared
at header lines 334-335) — `issue` fails as a no-op if a request is
already pending (the slot is only empty when its command is
`COMMAND_NONE`); otherwise it encodes and writes the frame via the
transport, stores the PendingRequest with the given deadline and retry
budget, and records the send timestamp `now`. -/
def send_request_and_waiting_response (s : Drv) (commandID : Command) (param : Nat)
    (timeout : Nat) (maxRetryTimes : Nat) (parseFunc : Option ParserId) (now : Nat) : Drv :=
  if Request.slot_empty s.pending_request then
    { send_packet s commandID param with
      pending_request :=
        { command := commandID
          param := param % 256
          recv_buf := []
          recv_response_length := 0
          expected_response_length := Request.get_expected_response_length commandID
          timeout_ms := timeout
          request_timestamp_ms := now
          max_retry_times := maxRetryTimes
          parser_func := parseFunc
          result := RequestStatus.PENDING } }
  else
    s

/-- Modelled from the spec: `request_pending(now)` (declared at header
line 350) — per-tick retry/timeout processing of the pending request.
While the deadline has not passed the request keeps waiting.  On a
timeout with retries remaining the frame is re-sent, the receive count is
reset, the deadline is re-armed and the retry budget
(`_max_retry_times`, the header's only retry field) is decremented.  With
the budget exhausted the request resolves to a terminal TIMEOUT failure
and the command slot is cleared.  Returns whether a request is still
pending. -/
def request_pending (s : Drv) (now : Nat) : Bool × Drv :=
  if s.pending_request.result ≠ RequestStatus.PENDING then
    (false, s)
  else if now - s.pending_request.request_timestamp_ms < s.pending_request.timeout_ms then
    (true, s)
  else if 0 < s.pending_request.max_retry_times then
    (true,
      { send_packet s s.pending_request.command s.pending_request.param with
        pending_request :=
          { s.pending_request with
            recv_response_length := 0
            request_timestamp_ms := now
            max_retry_times := s.pending_request.max_retry_times - 1 } })
  else
    (false,
      { s with pending_request :=
          { s.pending_request with
            result := RequestStatus.TIMEOUT
            command := Command.COMMAND_NONE } })

/-- One update tick against a transport that never delivers valid response
bytes: the driver is polled right when the pending request's deadline
expires. -/
def starve_step (s : Drv) : Drv :=
  (request_pending s
    (s.pending_request.request_timestamp_ms + s.pending_request.timeout_ms)).2

/-- Iterate `starve_step`. -/
def starve_run : Nat → Drv → Drv
  | 0, s => s
  | k + 1, s => starve_run k (starve_step s)

/-- Modelled from the spec: `exit_2_key_osd_menu` (declared at header
line 308) completes the ExitingMenu → Ready transition: the mode button
is simulated to leave the camera menu, the mode-change settle timer is
armed, and the MenuCursor is reset to depth 0 with
`topMenuPosition = -1`. -/
def exit_2_key_osd_menu (s : Drv) : Drv :=
  let s := send_packet s Command.RCDEVICE_PROTOCOL_COMMAND_CAMERA_CONTROL
    (control_operation_byte ControlOperation.RCDEVICE_PROTOCOL_CHANGE_MODE)
  let s := set_mode_change_timeout s
  { s with in_menu := 0
           top_menu_pos := -1
           state := State.READY }

/-- Modelled from the spec: `update_state_machine_armed` (declared at
header line 289) — the per-tick step while the vehicle is armed.  Only
START_RECORDING / STOP_RECORDING behaviour is driven (from the
`_video_recording` flag and the feature bitmask); menu-navigation events
are suppressed, so the RC switch edge `sw` — which would map to
ENTER_MENU when disarmed — is ignored, and an in-progress menu
interaction is abandoned back toward Ready (debounce timers abstracted
into single steps). -/
def update_state_machine_armed (s : Drv) (sw : SwitchPos) : Drv :=
  match sw, s.state with
  | _, State.INITIALIZING => s
  | _, State.INITIALIZED => { s with state := State.READY }
  | _, State.READY =>
      if s.video_recording
          && has_feature s.features Feature.RCDEVICE_PROTOCOL_FEATURE_START_RECORDING then
        { send_packet s Command.RCDEVICE_PROTOCOL_COMMAND_CAMERA_CONTROL
            (control_operation_byte ControlOperation.RCDEVICE_PROTOCOL_CHANGE_START_RECORDING)
          with state := State.VIDEO_RECORDING }
      else
        s
  | _, State.VIDEO_RECORDING =>
      if !s.video_recording
          && has_feature s.features Feature.RCDEVICE_PROTOCOL_FEATURE_STOP_RECORDING then
        { send_packet s Command.RCDEVICE_PROTOCOL_COMMAND_CAMERA_CONTROL
            (control_operation_byte ControlOperation.RCDEVICE_PROTOCOL_CHANGE_STOP_RECORDING)
          with state := State.READY }
      else
        s
  | _, State.ENTERING_MENU => s
  | _, State.IN_MENU => { s with state := State.EXITING_MENU }
  | _, State.EXITING_MENU => exit_2_key_osd_menu s

/-- The MenuCursor: `_top_menu_pos` (signed, -1 = no selection),
`_sub_menu_pos`, and the depth `_in_menu` (header lines 196-201). -/
structure MenuCursor where
  top_menu_pos : Int
  sub_menu_pos : Nat
  in_menu : Nat
deriving DecidableEq, Repr

/-- The cursor at construction: no selection, depth 0. -/
def initial_cursor : MenuCursor :=
  { top_menu_pos := -1, sub_menu_pos := 0, in_menu := 0 }

/-- Modelled from the spec: one menu-navigation step of the strategies
(`handle_2_key_simulation_process` / `handle_5_key_simulation_process`,
whose bodies are in the implementation file).  The cursor is parameterised
by the fixed sub-menu length table `_sub_menu_lengths` (header line 203,
values in the implementation file).  Up/down cycle the top-level position
inside the `RUNCAM_NUM_SUB_MENUS = 5` slots at depth 1 and cycle the
sub-menu position modulo the selected sub-menu's length deeper down;
enter descends resetting the sub-position; exit ascends, clearing the
selection at top level.  A move from an out-of-bounds cursor is rejected
before any request is sent (the cursor is left unchanged). -/
def menu_nav_step (lengths : Fin 5 → Nat) (c : MenuCursor) (ev : Event) : MenuCursor :=
  match ev with
  | Event.ENTER_MENU =>
      if c.in_menu = 0 then
        { top_menu_pos := 0, sub_menu_pos := 0, in_menu := 1 }
      else c
  | Event.IN_MENU_UP =>
      if h : 0 < c.in_menu ∧ 0 ≤ c.top_menu_pos ∧ c.top_menu_pos < 5 then
        if c.in_menu = 1 then
          { c with top_menu_pos := (c.top_menu_pos + 1) % 5 }
        else
          { c with sub_menu_pos :=
              (c.sub_menu_pos + 1) % lengths ⟨c.top_menu_pos.toNat, by omega⟩ }
      else c
  | Event.IN_MENU_DOWN =>
      if h : 0 < c.in_menu ∧ 0 ≤ c.top_menu_pos ∧ c.top_menu_pos < 5 then
        if c.in_menu = 1 then
          { c with top_menu_pos := (c.top_menu_pos + 4) % 5 }
        else
          { c with sub_menu_pos :=
              (c.sub_menu_pos + (lengths ⟨c.top_menu_pos.toNat, by omega⟩ - 1))
                % lengths ⟨c.top_menu_pos.toNat, by omega⟩ }
      else c
  | Event.IN_MENU_ENTER | Event.IN_MENU_RIGHT =>
      if 0 < c.in_menu ∧ 0 ≤ c.top_menu_pos ∧ c.top_menu_pos < 5 then
        { c with in_menu := c.in_menu + 1, sub_menu_pos := 0 }
      else c
  | Event.IN_MENU_EXIT =>
      if 2 ≤ c.in_menu then
        { c with in_menu := c.in_menu - 1, sub_menu_pos := 0 }
      else if c.in_menu = 1 then
        { top_menu_pos := -1, sub_menu_pos := 0, in_menu := 0 }
      else c
  | Event.EXIT_MENU =>
      { top_menu_pos := -1, sub_menu_pos := 0, in_menu := 0 }
  | _ => c

/-- The MenuCursor bounds invariant: the top position stays in
[-1, 5), the sub position is 0 at the top level, and whenever the depth is
positive and a top menu is selected the sub position is strictly below
the selected sub-menu's length. -/
def CursorInv (lengths : Fin 5 → Nat) (c : MenuCursor) : Prop :=
  -1 ≤ c.top_menu_pos ∧ c.top_menu_pos < 5
  ∧ (c.in_menu ≤ 1 → c.sub_menu_pos = 0)
  ∧ ∀ h : 0 ≤ c.top_menu_pos ∧ c.top_menu_pos < 5,
      0 < c.in_menu → c.sub_menu_pos < lengths ⟨c.top_menu_pos.toNat, by omega⟩

/-- C5: CRC round-trip — for every command/parameter pair, recomputing the
CRC8 (DVB-S2, high-bit-first) over all but the last byte of the encoded
frame equals that last byte, i.e. `verify (encode_packet c p) = true`. -/
theorem C5_crc_round_trip (c : Command) (p : Nat) :
    verify (encode_packet c p) = true := by
  simp [verify, encode_packet, List.dropLast_concat, List.getLast?_concat]

/-- Helper: testing a single `(1 << k)` bit with `&&&` agrees with
`Nat.testBit`. -/
theorem and_two_pow_bne_zero (n k : Nat) : ((n &&& 2 ^ k) != 0) = n.testBit k := by
  cases h : n.testBit k <;>
    simp [Nat.and_two_pow, h, Nat.pos_iff_ne_zero, Nat.pos_pow_of_pos]

/-- Helper: each feature's enumerator value is the power of two of its bit
index. -/
theorem feature_bit_eq_two_pow (f : Feature) :
    feature_bit f = 2 ^ feature_bit_index f := by
  cases f <;> rfl

/-- C7: every call to `set_mode_change_timeout` sets the transition
timeout to exactly `RUNCAM_MODE_DELAY_MS = 600` milliseconds and marks the
button as held. -/
theorem C7_mode_change_timeout (s : Drv) :
    (set_mode_change_timeout s).transition_timeout_ms = 600
    ∧ (set_mode_change_timeout s).button_pressed = true
    ∧ RUNCAM_MODE_DELAY_MS = 600 :=
  ⟨rfl, rfl, rfl⟩

/-- C8: `_top_menu_pos` starts at -1 (no selection) at construction, and
completing the menu exit (`exit_2_key_osd_menu`) resets the cursor to
depth 0 with `_top_menu_pos = -1`. -/
theorem C8_menu_cursor_reset (s : Drv) :
    initial_state.top_menu_pos = -1
    ∧ (exit_2_key_osd_menu s).in_menu = 0
    ∧ (exit_2_key_osd_menu s).top_menu_pos = -1
    ∧ (exit_2_key_osd_menu s).state = State.READY :=
  ⟨rfl, rfl, rfl, rfl⟩

/-- C9: `Request::parse_response` invokes the attached parser callback
only when it is non-null; with a null parser it is a no-op on the driver
state. -/
theorem C9_null_parser_safety (r : Request) (s : Drv)
    (h : r.parser_func = none) :
    Request.parse_response r s = s := by
  simp [Request.parse_response, h]

/-- C9 witness: the default-constructed request carries a null parser and
completing it leaves the driver state untouched. -/
theorem C9_null_parser_safety_witness :
    Request.default_ctor.parser_func = none
    ∧ Request.parse_response Request.default_ctor initial_state = initial_state :=
  ⟨rfl, C9_null_parser_safety Request.default_ctor initial_state rfl⟩

/-- C10: the default-constructed `Request` has command `COMMAND_NONE`;
the pending-request slot counts as empty exactly when its command is
`COMMAND_NONE`; hence at driver construction no request is outstanding. -/
theorem C10_empty_slot_encoding (r : Request) :
    Request.default_ctor.command = Command.COMMAND_NONE
    ∧ (Request.slot_empty r = true ↔ r.command = Command.COMMAND_NONE)
    ∧ Request.slot_empty initial_state.pending_request = true := by
  refine ⟨rfl, ?_, rfl⟩
  simp [Request.slot_empty]

/-- C2: while the vehicle is armed, no step of the armed state machine
transitions into `ENTERING_MENU`, for every driver state not already in
`ENTERING_MENU` and every RC switch position (in particular the edge that
would map to ENTER_MENU when disarmed). -/
theorem C2_no_menu_entry_while_armed (s : Drv) (sw : SwitchPos)
    (h : s.state ≠ State.ENTERING_MENU) :
    (update_state_machine_armed s sw).state ≠ State.ENTERING_MENU := by
  unfold update_state_machine_armed
  cases sw <;> cases hs : s.state <;>
    simp_all [exit_2_key_osd_menu, set_mode_change_timeout, send_packet] <;>
    split <;> simp_all

/-- C2 witness: an armed tick from the freshly constructed driver with the
high switch edge does not land in `ENTERING_MENU`. -/
theorem C2_no_menu_entry_while_armed_witness :
    initial_state.state ≠ State.ENTERING_MENU
    ∧ (update_state_machine_armed initial_state SwitchPos.HIGH).state
        ≠ State.ENTERING_MENU :=
  ⟨by decide, C2_no_menu_entry_while_armed initial_state SwitchPos.HIGH (by decide)⟩

/-- C6: `has_feature f` holds exactly when bit `f` is set in the feature
bitmask, and a simulated-button operation whose gating feature is absent
(or which has none) is rejected — `false` with no transport write. -/
theorem C6_capability_gating (features : Nat) (f : Feature) (s : Drv)
    (op : ControlOperation) :
    (has_feature features f = true ↔ features.testBit (feature_bit_index f))
    ∧ (∀ g, required_feature op = some g → has_feature s.features g = false →
        simulate_camera_button s op = (false, s))
    ∧ (required_feature op = none → simulate_camera_button s op = (false, s)) := by
  refine ⟨?_, ?_, ?_⟩
  · simp only [has_feature, feature_bit_eq_two_pow, and_two_pow_bne_zero]
  · intro g hg hf
    simp [simulate_camera_button, hg, hf]
  · intro hn
    simp [simulate_camera_button, hn]

/-- C6 witness: with an all-zero feature bitmask the power-button
simulation is rejected with no transport write. -/
theorem C6_capability_gating_witness :
    required_feature ControlOperation.RCDEVICE_PROTOCOL_SIMULATE_POWER_BTN
        = some Feature.RCDEVICE_PROTOCOL_FEATURE_SIMULATE_POWER_BUTTON
    ∧ has_feature initial_state.features
        Feature.RCDEVICE_PROTOCOL_FEATURE_SIMULATE_POWER_BUTTON = false
    ∧ simulate_camera_button initial_state
        ControlOperation.RCDEVICE_PROTOCOL_SIMULATE_POWER_BTN
        = (false, initial_state) :=
  ⟨rfl, by decide,
    (C6_capability_gating 0
        Feature.RCDEVICE_PROTOCOL_FEATURE_SIMULATE_POWER_BUTTON initial_state
        ControlOperation.RCDEVICE_PROTOCOL_SIMULATE_POWER_BTN).2.1
      Feature.RCDEVICE_PROTOCOL_FEATURE_SIMULATE_POWER_BUTTON rfl (by decide)⟩

/-- Helper: issuing while the pending-request slot is busy is a no-op. -/
theorem issue_noop_of_busy (s : Drv) (c : Command) (p t n : Nat)
    (pf : Option ParserId) (now : Nat)
    (h : Request.slot_empty s.pending_request = false) :
    send_request_and_waiting_response s c p t n pf now = s := by
  simp only [send_request_and_waiting_response, h]
  simp

/-- C1: the driver holds a single pending-request slot — issuing from an
empty slot writes exactly one frame, and issuing again while that request
is outstanding is a no-op: no second transport write and no overwrite of
the outstanding request. -/
theorem C1_single_pending_request (s : Drv) (c : Command) (p t n : Nat)
    (pf : Option ParserId) (now : Nat)
    (hempty : Request.slot_empty s.pending_request = true)
    (hc : c ≠ Command.COMMAND_NONE) :
    (send_request_and_waiting_response s c p t n pf now).sent
        = s.sent ++ [encode_packet c p]
    ∧ ∀ c2 p2 t2 n2 pf2 now2,
        send_request_and_waiting_response
            (send_request_and_waiting_response s c p t n pf now) c2 p2 t2 n2 pf2 now2
          = send_request_and_waiting_response s c p t n pf now := by
  have hcmd : s.pending_request.command = Command.COMMAND_NONE := by
    simpa [Request.slot_empty] using hempty
  constructor
  · simp [send_request_and_waiting_response, Request.slot_empty, hcmd, send_packet]
  · intro c2 p2 t2 n2 pf2 now2
    have h1 : Request.slot_empty
        (send_request_and_waiting_response s c p t n pf now).pending_request = false := by
      simp [send_request_and_waiting_response, Request.slot_empty, hcmd, hc]
    exact issue_noop_of_busy _ _ _ _ _ _ _ h1

/-- C1 witness: issuing a device-info request twice in succession from the
fresh driver yields exactly one transport write. -/
theorem C1_single_pending_request_witness :
    Request.slot_empty initial_state.pending_request = true
    ∧ (send_request_and_waiting_response initial_state
          Command.RCDEVICE_PROTOCOL_COMMAND_GET_DEVICE_INFO 0 100 3
          (some ParserId.device_info) 0).sent
        = initial_state.sent
            ++ [encode_packet Command.RCDEVICE_PROTOCOL_COMMAND_GET_DEVICE_INFO 0]
    ∧ send_request_and_waiting_response
          (send_request_and_waiting_response initial_state
            Command.RCDEVICE_PROTOCOL_COMMAND_GET_DEVICE_INFO 0 100 3
            (some ParserId.device_info) 0)
          Command.RCDEVICE_PROTOCOL_COMMAND_GET_DEVICE_INFO 0 100 3
          (some ParserId.device_info) 5
        = send_request_and_waiting_response initial_state
            Command.RCDEVICE_PROTOCOL_COMMAND_GET_DEVICE_INFO 0 100 3
            (some ParserId.device_info) 0 := by
  have h := C1_single_pending_request initial_state
    Command.RCDEVICE_PROTOCOL_COMMAND_GET_DEVICE_INFO 0 100 3
    (some ParserId.device_info) 0 rfl (by decide)
  exact ⟨rfl, h.1, h.2 Command.RCDEVICE_PROTOCOL_COMMAND_GET_DEVICE_INFO 0 100 3
    (some ParserId.device_info) 5⟩

/-- The driver after the initial send of a request issued at time 0 plus
`k` starved retry ticks: `k` retries consumed from the budget `N`, `k + 1`
frames on the wire, the deadline re-armed from timestamp `k * t`. -/
def starved_state (c : Command) (p t N : Nat) (pf : Option ParserId) (k : Nat) : Drv :=
  { initial_state with
    sent := List.replicate (k + 1) (encode_packet c p)
    pending_request :=
      { command := c
        param := p % 256
        recv_buf := []
        recv_response_length := 0
        expected_response_length := Request.get_expected_response_length c
        timeout_ms := t
        request_timestamp_ms := k * t
        max_retry_times := N - k
        parser_func := pf
        result := RequestStatus.PENDING } }

/-- The driver once the retry budget is exhausted: `N + 1` frames were
written, the request resolved to the terminal TIMEOUT failure and the
command slot was cleared. -/
def starved_final (c : Command) (p t N : Nat) (pf : Option ParserId) : Drv :=
  { starved_state c p t N pf N with
    pending_request :=
      { (starved_state c p t N pf N).pending_request with
        result := RequestStatus.TIMEOUT
        command := Command.COMMAND_NONE } }

/-- Helper: the encoder masks its parameter to a byte. -/
theorem encode_packet_mod (c : Command) (p : Nat) :
    encode_packet c (p % 256) = encode_packet c p := by
  have h : p % 256 % 256 = p % 256 := by omega
  simp [encode_packet, h]

/-- Helper: `starve_run` peels steps from the back as well. -/
theorem starve_run_succ (k : Nat) (s : Drv) :
    starve_run (k + 1) s = starve_step (starve_run k s) := by
  induction k generalizing s with
  | zero => rfl
  | succ n ih =>
    show starve_run (n + 1) (starve_step s) = _
    rw [ih]
    rfl

/-- Helper: issuing from the fresh driver at time 0 lands in
`starved_state _ _ _ _ _ 0`. -/
theorem issue_eq_starved_zero (c : Command) (p t N : Nat) (pf : Option ParserId) :
    send_request_and_waiting_response initial_state c p t N pf 0
      = starved_state c p t N pf 0 := by
  simp [send_request_and_waiting_response, Request.slot_empty, starved_state,
    send_packet, initial_state, Request.default_ctor]

/-- Helper: one starved tick with retries remaining re-sends the frame,
consumes one retry and re-arms the deadline. -/
theorem starve_step_starved (c : Command) (p t N : Nat) (pf : Option ParserId)
    (k : Nat) (hk : k < N) :
    starve_step (starved_state c p t N pf k) = starved_state c p t N pf (k + 1) := by
  have h3 : 0 < N - k := by omega
  have hts : k * t + t = (k + 1) * t := by ring
  have hmr : N - k - 1 = N - (k + 1) := by omega
  have hlt1 : ¬ (k * t + t - k * t < t) := by
    generalize k * t = a
    omega
  have hlt2 : ¬ ((k + 1) * t - k * t < t) := by
    rw [← hts]
    exact hlt1
  simp [starve_step, request_pending, starved_state, send_packet, encode_packet_mod,
    h3, hts, hmr, hlt1, hlt2, List.replicate_succ']

/-- Helper: the starved tick that finds the budget exhausted resolves the
request to the terminal failure without sending. -/
theorem starve_step_exhausted (c : Command) (p t N : Nat) (pf : Option ParserId) :
    starve_step (starved_state c p t N pf N) = starved_final c p t N pf := by
  simp [starve_step, request_pending, starved_state, starved_final]

/-- Helper: the terminal state is a fixed point of the starved tick. -/
theorem starve_run_final (c : Command) (p t N : Nat) (pf : Option ParserId) (j : Nat) :
    starve_run j (starved_final c p t N pf) = starved_final c p t N pf := by
  induction j with
  | zero => rfl
  | succ n ih =>
    rw [starve_run_succ, ih]
    simp [starve_step, request_pending, starved_final, starved_state]

/-- Helper: the first `N` starved ticks after the issue just re-send. -/
theorem starve_run_starved (c : Command) (p t N : Nat) (pf : Option ParserId)
    (k : Nat) (hk : k ≤ N) :
    starve_run k (send_request_and_waiting_response initial_state c p t N pf 0)
      = starved_state c p t N pf k := by
  induction k with
  | zero => exact issue_eq_starved_zero c p t N pf
  | succ n ih =>
    rw [starve_run_succ, ih (by omega), starve_step_starved c p t N pf n (by omega)]

/-- C3: retry bound — a request issued with retry budget `N` against a
transport that never delivers valid response bytes makes exactly `N + 1`
send attempts (the initial send plus `N` timeout-driven retries), resolves
to the terminal TIMEOUT failure with the command slot cleared, and then
never retries again: every further starved tick leaves the driver
unchanged. -/
theorem C3_retry_bound (c : Command) (p t N : Nat) (pf : Option ParserId) :
    (starve_run (N + 1)
        (send_request_and_waiting_response initial_state c p t N pf 0)).sent.length
      = N + 1
    ∧ (starve_run (N + 1)
        (send_request_and_waiting_response initial_state c p t N pf 0)).pending_request.result
      = RequestStatus.TIMEOUT
    ∧ (starve_run (N + 1)
        (send_request_and_waiting_response initial_state c p t N pf 0)).pending_request.command
      = Command.COMMAND_NONE
    ∧ (∀ k, k ≤ N →
        (starve_run k
          (send_request_and_waiting_response initial_state c p t N pf 0)).sent.length
        = k + 1)
    ∧ (∀ j, starve_run j
        (starve_run (N + 1) (send_request_and_waiting_response initial_state c p t N pf 0))
      = starve_run (N + 1) (send_request_and_waiting_response initial_state c p t N pf 0)) := by
  have hN1 : starve_run (N + 1) (send_request_and_waiting_response initial_state c p t N pf 0)
      = starved_final c p t N pf := by
    rw [starve_run_succ, starve_run_starved c p t N pf N le_rfl, starve_step_exhausted]
  refine ⟨?_, ?_, ?_, ?_, ?_⟩
  · rw [hN1]
    simp [starved_final, starved_state]
  · rw [hN1]
    rfl
  · rw [hN1]
    rfl
  · intro k hk
    rw [starve_run_starved c p t N pf k hk]
    simp [starved_state]
  · intro j
    rw [hN1, starve_run_final]

/-- Helper: one navigation step preserves the MenuCursor bounds invariant
whenever every sub-menu in the length table is non-empty. -/
theorem menu_nav_step_inv (lengths : Fin 5 → Nat) (hlen : ∀ i, 0 < lengths i)
    (c : MenuCursor) (ev : Event) (hc : CursorInv lengths c) :
    CursorInv lengths (menu_nav_step lengths c ev) := by
  obtain ⟨h1, h2, h3, h4⟩ := hc
  unfold CursorInv
  cases ev with
  | ENTER_MENU =>
    by_cases h0 : c.in_menu = 0
    · simp only [menu_nav_step, if_pos h0]
      dsimp only
      exact ⟨by omega, by omega, fun _ => by trivial, fun hh hd => hlen _⟩
    · simp only [menu_nav_step, if_neg h0]
      exact ⟨h1, h2, h3, h4⟩
  | IN_MENU_UP =>
    simp only [menu_nav_step]
    split
    next h =>
      by_cases hd1 : c.in_menu = 1
      · simp only [if_pos hd1]
        dsimp only
        refine ⟨by omega, by omega, fun _ => h3 (by omega), fun hh hd => ?_⟩
        exact Nat.lt_of_le_of_lt (Nat.le_of_eq (h3 (by omega))) (hlen _)
      · simp only [if_neg hd1]
        dsimp only
        refine ⟨h1, h2, fun hm => absurd h.1 (by omega), fun hh hd => ?_⟩
        exact Nat.mod_lt _ (hlen _)
    next h => exact ⟨h1, h2, h3, h4⟩
  | IN_MENU_DOWN =>
    simp only [menu_nav_step]
    split
    next h =>
      by_cases hd1 : c.in_menu = 1
      · simp only [if_pos hd1]
        dsimp only
        refine ⟨by omega, by omega, fun _ => h3 (by omega), fun hh hd => ?_⟩
        exact Nat.lt_of_le_of_lt (Nat.le_of_eq (h3 (by omega))) (hlen _)
      · simp only [if_neg hd1]
        dsimp only
        refine ⟨h1, h2, fun hm => absurd h.1 (by omega), fun hh hd => ?_⟩
        exact Nat.mod_lt _ (hlen _)
    next h => exact ⟨h1, h2, h3, h4⟩
  | IN_MENU_ENTER =>
    simp only [menu_nav_step]
    split
    next h =>
      dsimp only
      exact ⟨h1, h2, fun hm => absurd h.1 (by omega), fun hh hd => hlen _⟩
    next h => exact ⟨h1, h2, h3, h4⟩
  | IN_MENU_RIGHT =>
    simp only [menu_nav_step]
    split
    next h =>
      dsimp only
      exact ⟨h1, h2, fun hm => absurd h.1 (by omega), fun hh hd => hlen _⟩
    next h => exact ⟨h1, h2, h3, h4⟩
  | IN_MENU_EXIT =>
    simp only [menu_nav_step]
    split
    next h =>
      dsimp only
      exact ⟨h1, h2, fun _ => by trivial, fun hh hd => hlen _⟩
    next h =>
      split
      next h1' =>
        dsimp only
        exact ⟨by omega, by omega, fun _ => by trivial, fun hh hd => absurd hh.1 (by omega)⟩
      next h1' => exact ⟨h1, h2, h3, h4⟩
  | EXIT_MENU =>
    simp only [menu_nav_step]
    dsimp only
    exact ⟨by omega, by omega, fun _ => by trivial, fun hh hd => absurd hh.1 (by omega)⟩
  | NONE => exact ⟨h1, h2, h3, h4⟩
  | BUTTON_RELEASE => exact ⟨h1, h2, h3, h4⟩
  | STOP_RECORDING => exact ⟨h1, h2, h3, h4⟩
  | START_RECORDING => exact ⟨h1, h2, h3, h4⟩

/-- Helper: the invariant is preserved by every sequence of navigation
events. -/
theorem menu_nav_run_inv (lengths : Fin 5 → Nat) (hlen : ∀ i, 0 < lengths i)
    (evs : List Event) (c : MenuCursor) (hc : CursorInv lengths c) :
    CursorInv lengths (evs.foldl (menu_nav_step lengths) c) := by
  induction evs generalizing c with
  | nil => exact hc
  | cons e es ih => exact ih _ (menu_nav_step_inv lengths hlen c e hc)

/-- C4: MenuCursor bounds — for every sequence of navigation events
processed from the initial cursor, `_sub_menu_pos` stays strictly below
`_sub_menu_lengths[_top_menu_pos]` whenever the menu depth is positive and
a top menu is selected, and `_top_menu_pos` never reaches the fixed
top-menu count `RUNCAM_NUM_SUB_MENUS = 5` (out-of-bounds moves leave the
cursor unchanged, rejected before any request is sent). -/
theorem C4_menu_cursor_bounds (lengths : Fin 5 → Nat) (hlen : ∀ i, 0 < lengths i)
    (evs : List Event) :
    CursorInv lengths (evs.foldl (menu_nav_step lengths) initial_cursor)
    ∧ (evs.foldl (menu_nav_step lengths) initial_cursor).top_menu_pos
        < (RUNCAM_NUM_SUB_MENUS : Int) := by
  have hinit : CursorInv lengths initial_cursor := by
    refine ⟨by norm_num [initial_cursor], by norm_num [initial_cursor],
      fun _ => rfl, fun hh hd => ?_⟩
    exact absurd hh.1 (by norm_num [initial_cursor])
  have h := menu_nav_run_inv lengths hlen evs initial_cursor hinit
  refine ⟨h, ?_⟩
  have := h.2.1
  simpa [RUNCAM_NUM_SUB_MENUS] using this

/-- C4 witness: a concrete all-positive length table and a concrete
navigation sequence satisfy the hypotheses and the invariant. -/
theorem C4_menu_cursor_bounds_witness :
    (∀ i : Fin 5, 0 < (fun _ : Fin 5 => 3) i)
    ∧ CursorInv (fun _ : Fin 5 => 3)
        ([Event.ENTER_MENU, Event.IN_MENU_UP, Event.IN_MENU_ENTER,
          Event.IN_MENU_DOWN].foldl (menu_nav_step (fun _ : Fin 5 => 3)) initial_cursor)
    ∧ ([Event.ENTER_MENU, Event.IN_MENU_UP, Event.IN_MENU_ENTER,
          Event.IN_MENU_DOWN].foldl (menu_nav_step (fun _ : Fin 5 => 3)) initial_cursor).top_menu_pos
        < (RUNCAM_NUM_SUB_MENUS : Int) :=
  ⟨by decide,
    (C4_menu_cursor_bounds (fun _ : Fin 5 => 3) (by decide)
      [Event.ENTER_MENU, Event.IN_MENU_UP, Event.IN_MENU_ENTER, Event.IN_MENU_DOWN]).1,
    (C4_menu_cursor_bounds (fun _ : Fin 5 => 3) (by decide)
      [Event.ENTER_MENU, Event.IN_MENU_UP, Event.IN_MENU_ENTER, Event.IN_MENU_DOWN]).2⟩

end RunCam
